import Mathlib

/-!
Verification development for the Vinted profile/item harvester
(`vinted_scraper.py`).  The Python source is shallowly embedded below:
pure string manipulation becomes Lean string functions, the browser DOM
and the network become explicit oracles (records of probe results and
fetch functions), and the filesystem / session side effects become an
explicit event trace.  All definitions are executable.
-/

set_option autoImplicit false

namespace VintedTool

/-! ### Python string primitives used by the scraper -/

/-- `List`-level prefix test (used to implement Python's `in` operator). -/
def isPrefixL : List Char → List Char → Bool
  | [], _ => true
  | _ :: _, [] => false
  | a :: as, b :: bs => a == b && isPrefixL as bs

/-- `List`-level infix test. -/
def isInfixL (n : List Char) : List Char → Bool
  | [] => isPrefixL n []
  | c :: cs => isPrefixL n (c :: cs) || isInfixL n cs

/-- Python's `needle in hay` substring operator on strings. -/
def pyIn (needle hay : String) : Bool :=
  isInfixL needle.toList hay.toList

/-- `str.startswith` (also used for Lean-side prefix tests, since it is
structurally recursive and therefore evaluates inside the kernel). -/
def pyStartsWith (pre s : String) : Bool :=
  isPrefixL pre.toList s.toList

/-- `str.lower` (ASCII case folding, which is all the scraper's inputs
use). -/
def pyLower (s : String) : String :=
  String.mk (s.toList.map Char.toLower)

/-- `str.strip` with no argument: remove leading and trailing
whitespace. -/
def pyStrip (s : String) : String :=
  String.mk
    (((s.toList.dropWhile Char.isWhitespace).reverse.dropWhile
        Char.isWhitespace).reverse)

/-- `str.split(sep)` for a one-character separator. -/
def splitOnCharAux (sep : Char) : List Char → List Char → List (List Char)
  | cur, [] => [cur.reverse]
  | cur, c :: cs =>
    if c == sep then cur.reverse :: splitOnCharAux sep [] cs
    else splitOnCharAux sep (c :: cur) cs

def pySplitChar (sep : Char) (s : String) : List String :=
  (splitOnCharAux sep [] s.toList).map String.mk

/-- `str.replace(a, b)` for one-character patterns. -/
def replaceChar (a b : Char) (s : String) : String :=
  String.mk (s.toList.map (fun c => if c == a then b else c))

/-- `sep.join(xs)`. -/
def joinWith (sep : String) : List String → String
  | [] => ""
  | [x] => x
  | x :: xs => x ++ sep ++ joinWith sep xs

/-- Python truthiness of an optional string (`None` and `""` are falsy). -/
def pyTruthyS : Option String → Bool
  | none => false
  | some s => !(s == "")

/-- Python truthiness of an optional integer (`None` and `0` are falsy).
Used for `expected_count` in `scroll_until_all_items_loaded` and for the
`if expected_count and ...` early-exit guard. -/
def pyTruthyNatOpt : Option Nat → Bool
  | none => false
  | some n => !(n == 0)

/-- Python's `str(x)` for an optional string as interpolated by an f-string:
`None` prints as `"None"`. -/
def pyStr : Option String → String
  | none => "None"
  | some s => s

/-! ### `urllib.parse.urlparse`, modelled for the inputs the classifier feeds it

`validate_url` canonicalizes every input so that it starts with `http://`
or `https://` before parsing; the model below is faithful on that domain
(scheme = text before `://`, netloc = remainder up to the first of
`/ ? #`, path = from that point up to the first of `? #`).  A string with
neither prefix is given an empty scheme and netloc, which (like CPython's
result for a scheme-less string) fails the scraper's scheme check. -/

structure ParsedUrl where
  scheme : String
  netloc : String
  path : String
  deriving DecidableEq, Repr

/-- Split `rest` (the text after `scheme://`) into netloc and path. -/
def splitAfterScheme (rest : String) : String × String :=
  let cs := rest.toList
  let netloc := cs.takeWhile (fun c => !(c == '/') && !(c == '?') && !(c == '#'))
  let tail := cs.dropWhile (fun c => !(c == '/') && !(c == '?') && !(c == '#'))
  let path := tail.takeWhile (fun c => !(c == '?') && !(c == '#'))
  (String.mk netloc, String.mk path)

def urlparseModel (url : String) : ParsedUrl :=
  if pyStartsWith "http://" url then
    let np := splitAfterScheme (String.mk (url.toList.drop 7))
    ⟨"http", np.1, np.2⟩
  else if pyStartsWith "https://" url then
    let np := splitAfterScheme (String.mk (url.toList.drop 8))
    ⟨"https", np.1, np.2⟩
  else
    ⟨"", "", url⟩

/-! ### URL classifier (`is_valid_vinted_url`, `validate_url`) -/

/-- `is_valid_vinted_url` from the source: scheme must be `http`/`https`,
the netloc must contain the substring `vinted.`, and the lower-cased path
must start with one of four fixed prefixes. -/
def is_valid_vinted_url (url : String) : Bool :=
  ((urlparseModel url).scheme == "http" || (urlparseModel url).scheme == "https")
    && pyIn "vinted." (urlparseModel url).netloc
    && (["/items/", "/member/", "/catalog/", "/user/"].any
      (fun p => pyStartsWith p (pyLower (urlparseModel url).path)))

/-- The canonicalization step of `validate_url`: strip whitespace, then
prepend `https://` unless the string already starts with `http://` or
`https://`. -/
def canonicalize (url : String) : String :=
  let t := pyStrip url
  if pyStartsWith "http://" t || pyStartsWith "https://" t then t
  else "https://" ++ t

/-- `validate_url` from the source: canonicalize, then keep the URL only
if `is_valid_vinted_url` accepts it. -/
def validate_url (url : String) : Option String :=
  if is_valid_vinted_url (canonicalize url) then some (canonicalize url)
  else none

/-- Modelled from the spec (for comparison with the code's substring
check): a host is in the marketplace's domain family when it is
`vinted.<top-level variant>` itself or a subdomain of it, i.e. the label
`vinted` starts the registrable part of the host. -/
def specDomainFamily (host : String) : Bool :=
  pyStartsWith "vinted." host || pyIn ".vinted." host

/-! ### DOM probes and the field extraction engine

A Selenium `WebDriverWait(...).until(...)` either produces an element
(whose stripped text the scraper keeps) or raises (timeout, stale
element, ...).  `Probe` is that outcome; `tryProbe` is the
`try: x = probe.text.strip() / except: x = None` pattern the source uses
for each of the five optional fields. -/

inductive Probe (α : Type) where
  | ok (a : α)
  | exn
  deriving DecidableEq, Repr

/-- The `try/except` wrapper around one field probe: a successful probe
contributes its stripped text, a raising probe contributes `None`. -/
def tryProbe : Probe String → Option String
  | .ok s => some (pyStrip s)
  | .exn => none

/-- The DOM as the extraction engine sees it: the outcome of each of the
five field probes (`description`, `price`, `size`, `condition`,
`color`). -/
structure DomProbes where
  description : Probe String
  price : Probe String
  size : Probe String
  condition : Probe String
  color : Probe String
  deriving DecidableEq, Repr

/-- The five optional values the extraction engine produces. -/
structure Fields where
  description : Option String
  price : Option String
  size : Option String
  condition : Option String
  color : Option String
  deriving DecidableEq, Repr

/-- The straight-line field extraction of `download_images`
(`vinted_scraper.py` lines 241-294): five independent probes, each
wrapped in its own `try/except`. -/
def extractTextFields (d : DomProbes) : Fields :=
  let description := tryProbe d.description
  let price := tryProbe d.price
  let size := tryProbe d.size
  let condition := tryProbe d.condition
  let color := tryProbe d.color
  ⟨description, price, size, condition, color⟩

/-- Which of the five probes are forced to fail (time out / raise). -/
structure FailSet where
  description : Bool
  price : Bool
  size : Bool
  condition : Bool
  color : Bool
  deriving DecidableEq, Repr

/-- Replace the probes selected by `S` with raising probes. -/
def maskDom (S : FailSet) (d : DomProbes) : DomProbes where
  description := if S.description then .exn else d.description
  price := if S.price then .exn else d.price
  size := if S.size then .exn else d.size
  condition := if S.condition then .exn else d.condition
  color := if S.color then .exn else d.color

/-- The guard of `if description or price or size or condition or color`
(Python truthiness: `None` and `""` are both falsy). -/
def anyFieldTruthy (f : Fields) : Bool :=
  pyTruthyS f.description || pyTruthyS f.price || pyTruthyS f.size ||
    pyTruthyS f.condition || pyTruthyS f.color

/-- The exact file content `save_description` writes (five key-value
lines; a `None` field is interpolated as the text `None`). -/
def save_description (f : Fields) : String :=
  "Description: " ++ pyStr f.description ++ "\n" ++
  "Price: " ++ pyStr f.price ++ "\n" ++
  "Size: " ++ pyStr f.size ++ "\n" ++
  "Condition: " ++ pyStr f.condition ++ "\n" ++
  "Color: " ++ pyStr f.color ++ "\n"

/-! ### Lazy-load completion detector (`scroll_until_all_items_loaded`)

The page is an oracle mapping the round number to the list of `href`
attributes of the anchors matching `a[href*='/items/']` at the end of
that round's incremental scroll.  Python's `set` of seen links is
modelled as a duplicate-free list in insertion order; the returned pair
is (number of scroll rounds performed, accumulated links) — the round
count is instrumentation used to state the round-budget claims. -/

/-- `set.add`: append if not already present. -/
def addUnique1 (acc : List String) (u : String) : List String :=
  if u ∈ acc then acc else acc ++ [u]

/-- `seen_links.update(new_links)`. -/
def addUniqueAll (seen : List String) (ls : List String) : List String :=
  ls.foldl addUnique1 seen

/-- One execution of the `while scrolls < max_scrolls` loop body, with
`fuel` the remaining rounds and `round` the index of the current round.
The early exit fires only when `expected_count` is truthy (not `None`,
not `0`) and the accumulated set has reached it. -/
def scrollAux (pageLinks : Nat → List String) (expected : Option Nat) :
    Nat → Nat → List String → Nat × List String
  | 0, round, seen => (round, seen)
  | fuel + 1, round, seen =>
    let seen2 := addUniqueAll seen (pageLinks round)
    if pyTruthyNatOpt expected && decide (expected.getD 0 ≤ seen2.length) then
      (round + 1, seen2)
    else
      scrollAux pageLinks expected fuel (round + 1) seen2

/-- `scroll_until_all_items_loaded` (source lines 166-193). -/
def scroll_until_all_items_loaded (pageLinks : Nat → List String)
    (expected : Option Nat) (max_scrolls : Nat) : Nat × List String :=
  scrollAux pageLinks expected max_scrolls 0 []

/-! ### Article name extraction and filename sanitization -/

/-- `sanitize_filename`: drop the characters the regex removes, then
strip. -/
def sanitize_filename (name : String) : String :=
  pyStrip (String.mk (name.toList.filter
    (fun c => !(c ∈ ['<', '>', ':', '"', '/', '\\', '|', '?', '*']))))

/-- Python `str.title()`: upper-case the first character of each run of
letters, lower-case the rest. -/
def titleCaseAux : Bool → List Char → List Char
  | _, [] => []
  | prevAlpha, c :: cs =>
    if c.isAlpha then
      (if prevAlpha then c.toLower else c.toUpper) :: titleCaseAux true cs
    else c :: titleCaseAux false cs

def titleCase (s : String) : String :=
  String.mk (titleCaseAux false s.toList)

/-- First run of decimal digits as a number (`re.search(r"(\d+)")`). -/
def digitsVal (cs : List Char) : Nat :=
  cs.foldl (fun a c => a * 10 + (c.toNat - 48)) 0

def firstIntAux : List Char → Option Nat
  | [] => none
  | c :: cs =>
    if c.isDigit then some (digitsVal (c :: cs.takeWhile Char.isDigit))
    else firstIntAux cs

def firstInt (s : String) : Option Nat :=
  firstIntAux s.toList

/-- `extract_article_name`: title probe first; on failure fall back to
parsing `<id>-<slug>` out of the current URL's `/items/` path; if that
fails too, a timestamp-based name. -/
def extract_article_name (title : Probe String) (currentUrl : String)
    (timestamp : Nat) : String :=
  match title with
  | .ok t => pyStrip t
  | .exn =>
    let parsed := urlparseModel currentUrl
    let parts := pySplitChar '/' parsed.path
    if 3 ≤ parts.length ∧ parts.getD (parts.length - 2) "" = "items" then
      let lastPart := parts.getLastD ""
      let segs := pySplitChar '-' lastPart
      let itemId := segs.headD ""
      let namePart := joinWith "-" segs.tail
      let cleanName := if namePart ≠ "" then itemId ++ "_" ++ namePart else itemId
      titleCase (replaceChar '-' ' ' cleanName)
    else
      "item_" ++ toString timestamp

/-! ### Media discovery (`download_images`, lines 304-355)

The DOM oracle provides, for each of the four CSS selector strategies,
the list of `src` attributes of the matched images (`none` models a
raising `get_attribute` call), and for each scroll-and-retry round the
same for the broad selector. -/

/-- The allow-pattern of the primary strategies:
`'vinted.net' in img_url and '/t/' in img_url`. -/
def primaryFilter (u : String) : Bool :=
  pyIn "vinted.net" u && pyIn "/t/" u

/-- The filter of the scroll-and-retry recovery loop:
`'vinted.net' in img_url` only. -/
def fallbackFilter (u : String) : Bool :=
  pyIn "vinted.net" u

/-- Path of `base` up to and including the last `/` (the directory part
used by relative-reference resolution). -/
def dirnamePath (path : String) : String :=
  String.mk ((path.toList.reverse.dropWhile (fun c => !(c == '/'))).reverse)

/-- `urllib.parse.urljoin`, modelled for the common cases the scraper
can hit (absolute URL, scheme-relative `//...`, absolute path `/...`,
bare relative reference); dot-segment normalization is not modelled. -/
def urljoinModel (base url : String) : String :=
  if pyIn "://" url then url
  else if pyStartsWith "//" url then (urlparseModel base).scheme ++ ":" ++ url
  else if pyStartsWith "/" url then
    let p := urlparseModel base
    p.scheme ++ "://" ++ p.netloc ++ url
  else
    let p := urlparseModel base
    p.scheme ++ "://" ++ p.netloc ++ dirnamePath p.path ++ url

/-- Inner loop over one selector's images: keep a `src` that passes the
primary allow-pattern, resolving it against the item URL when it does
not start with `http`; a raising `get_attribute` (`none`) is skipped by
its per-image `try/except`. -/
def collectFromImgs (itemUrl : String) (acc : List String)
    (imgs : List (Option String)) : List String :=
  imgs.foldl
    (fun acc src? =>
      match src? with
      | none => acc
      | some u =>
        if primaryFilter u then
          addUnique1 acc (if pyStartsWith "http" u then u else urljoinModel itemUrl u)
        else acc)
    acc

/-- The ordered walk over the four selector strategies with
`if unique_image_urls: break` after each one. -/
def primaryCollect (itemUrl : String) (sels : List (List (Option String))) :
    List String :=
  sels.foldl (fun acc imgs => if acc.isEmpty then collectFromImgs itemUrl acc imgs else acc) []

/-- One round of the recovery loop: keep every `src` containing
`vinted.net`, verbatim (no `/t/` requirement, no `urljoin`). -/
def collectFallbackRound (acc : List String) (imgs : List (Option String)) :
    List String :=
  imgs.foldl
    (fun acc src? =>
      match src? with
      | none => acc
      | some u => if fallbackFilter u then addUnique1 acc u else acc)
    acc

/-- The `for _ in range(3)` scroll-and-retry loop with its
`if unique_image_urls: break`. -/
def fallbackAux (scrollImgs : Nat → List (Option String)) :
    Nat → Nat → List String → List String
  | _, 0, acc => acc
  | round, attempts + 1, acc =>
    let acc2 := collectFallbackRound acc (scrollImgs round)
    if acc2.isEmpty then fallbackAux scrollImgs (round + 1) attempts acc2 else acc2

/-! ### Image download loop (`download_images`, lines 360-391) -/

/-- An HTTP response the download loop accepts (`raise_for_status`
passed); only the declared content type matters to the scraper. -/
structure FetchResp where
  contentType : String
  deriving DecidableEq, Repr

/-- Extension choice of the download loop (lines 368-377): the declared
content type is lower-cased; `jpeg` gives `.jpg`, `png` gives `.png`,
otherwise `.jpg` exactly when the lower-cased URL contains `.jpeg`, else
`.png`. -/
def chooseExt (contentType imgUrl : String) : String :=
  if pyIn "jpeg" (pyLower contentType) then ".jpg"
  else if pyIn "png" (pyLower contentType) then ".png"
  else if pyIn ".jpeg" (pyLower imgUrl) then ".jpg" else ".png"

/-- Per-image download outcome: the 1-based ordinal of the iteration
position, the source URL, and (on success) the saved filename. -/
inductive Outcome where
  | saved (idx : Nat) (url : String) (fname : String)
  | failed (idx : Nat) (url : String)
  deriving DecidableEq, Repr

/-- The `for idx, img_url in enumerate(unique_image_urls, start=1)` loop:
a fetch failure (network error / non-2xx) produces a `failed` outcome
and the loop continues; a success saves to
`{folder}/{article_name.replace(' ','_')}_{idx}{ext}`. -/
def downloadOutcomes (folder articleName : String)
    (fetch : String → Option FetchResp) : Nat → List String → List Outcome
  | _, [] => []
  | idx, u :: rest =>
    match fetch u with
    | some resp =>
      .saved idx u
          (folder ++ "/" ++ replaceChar ' ' '_' articleName ++ "_" ++ toString idx ++
            chooseExt resp.contentType u) ::
        downloadOutcomes folder articleName fetch (idx + 1) rest
    | none => .failed idx u :: downloadOutcomes folder articleName fetch (idx + 1) rest

/-- The saved artifacts: (ordinal, filename) pairs. -/
def savedOf : List Outcome → List (Nat × String)
  | [] => []
  | .saved idx _ fname :: os => (idx, fname) :: savedOf os
  | .failed _ _ :: os => savedOf os

/-- The lines appended to the `failed_images.txt` ledger. -/
def ledgerOf : List Outcome → List String
  | [] => []
  | .saved _ _ _ :: os => ledgerOf os
  | .failed _ u :: os => u :: ledgerOf os

/-! ### Event-trace model of `download_images` and the orchestrator

Side effects become an explicit trace: browser sessions opened/closed,
page navigation, DOM field probes, the `description.txt` write, image
fetches/saves and ledger appends.  Python exceptions become an
`Option String` error component: `some msg` means the call raised and
the message propagated to the caller. -/

inductive Ev where
  | openSession
  | closeSession
  | navigate (url : String)
  | probe (field : String)
  | writeDescription (content : String)
  | fetchImage (url : String)
  | saveImage (path : String)
  | ledgerAppend (url : String)
  deriving DecidableEq, Repr

/-- Everything one `download_images(item_url, ...)` call can observe:
whether `driver.get` succeeds, the title probe, the current URL and a
timestamp (for the name fallbacks), the five field probes, whether
`description.txt` already exists in the item folder, whether the
unguarded `save_description` write succeeds, the image `src` lists per
selector strategy and per recovery-scroll round, and the HTTP fetch
oracle. -/
structure ItemEnv where
  navigateOk : Bool
  title : Probe String
  currentUrl : String
  timestamp : Nat
  dom : DomProbes
  hasDescriptionFile : Bool
  saveOk : Bool
  selectorImgs : List (List (Option String))
  scrollImgs : Nat → List (Option String)
  fetch : String → Option FetchResp

def articleNameOf (env : ItemEnv) : String :=
  extract_article_name env.title env.currentUrl env.timestamp

/-- `os.path.join(base_folder, folder_name) if base_folder else folder_name`. -/
def folderOf (baseFolder : String) (env : ItemEnv) : String :=
  let folderName := sanitize_filename (articleNameOf env)
  if baseFolder ≠ "" then baseFolder ++ "/" ++ folderName else folderName

/-- Candidate discovery (lines 304-355): primary selector strategies
first; the scroll-and-retry recovery loop runs only when they produced
nothing. -/
def discoverImages (env : ItemEnv) (itemUrl : String) : List String :=
  let p := primaryCollect itemUrl env.selectorImgs
  if p.isEmpty then fallbackAux env.scrollImgs 0 3 [] else p

/-- Trace of the download loop. -/
def outcomeEvents : List Outcome → List Ev
  | [] => []
  | .saved _ u fname :: os => .fetchImage u :: .saveImage fname :: outcomeEvents os
  | .failed _ u :: os => .fetchImage u :: .ledgerAppend u :: outcomeEvents os

/-- The whole image phase of `download_images` (discovery plus download
loop); its internal failures are all caught inside, so it is total. -/
def imagePhaseIn (baseFolder : String) (env : ItemEnv) (itemUrl : String) :
    List Ev :=
  outcomeEvents
    (downloadOutcomes (folderOf baseFolder env) (articleNameOf env) env.fetch 1
      (discoverImages env itemUrl))

/-- The five probe events, in source order. -/
def textPhaseEvents : List Ev :=
  [.probe "description", .probe "price", .probe "size", .probe "condition",
    .probe "color"]

/-- The description phase (lines 239-302): skipped entirely when
`description.txt` already exists; otherwise the five probes run, and the
artifact is written only when the truthiness guard passes.  The write
itself is unguarded: when it fails the exception escapes
`download_images`.  Returns (trace of the phase, propagated error). -/
def descriptionPhase (env : ItemEnv) : List Ev × Option String :=
  if env.hasDescriptionFile then ([], none)
  else
    let f := extractTextFields env.dom
    if anyFieldTruthy f then
      if env.saveOk then
        (textPhaseEvents ++ [.writeDescription (save_description f)], none)
      else (textPhaseEvents, some "save_description raised")
    else (textPhaseEvents, none)

/-- `download_images` (lines 225-398).  The body is a `try ... finally:
driver.quit()` with no `except`: a navigation failure or a failing
`save_description` write escapes the function (after the session is
closed by the `finally`); all field-probe and image failures are caught
inside. -/
def download_images (itemUrl : String) (baseFolder : String) (env : ItemEnv) :
    List Ev × Option String :=
  if !env.navigateOk then
    ([.openSession, .navigate itemUrl, .closeSession], some "navigation raised")
  else
    let dp := descriptionPhase env
    match dp.2 with
    | some e => ([.openSession, .navigate itemUrl] ++ dp.1 ++ [.closeSession], some e)
    | none =>
      ([.openSession, .navigate itemUrl] ++ dp.1 ++
          imagePhaseIn baseFolder env itemUrl ++ [.closeSession],
        none)

/-- The `for index, url in enumerate(item_urls, start=1)` loop of
`__main__` (lines 462-464).  There is no `try/except` inside the loop:
an exception escaping `download_images` propagates to the harvest-level
handler (lines 486-489), so iteration stops at the first escaping
failure. -/
def iterateItems (baseFolder : String) (envOf : String → ItemEnv) :
    List String → List Ev × Option String
  | [] => ([], none)
  | u :: rest =>
    let r := download_images u baseFolder (envOf u)
    match r.2 with
    | some e => (r.1, some e)
    | none =>
      let r2 := iterateItems baseFolder envOf rest
      (r.1 ++ r2.1, r2.2)

/-! ### Profile discovery and the `--all` orchestration path -/

/-- Environment of a whole profile harvest. -/
structure HarvestEnv where
  accessibleOk : Bool
  profileUsername : Option String
  profilePicUrl : Option String
  headerText : Probe String
  pageLinks : Nat → List String
  itemEnv : String → ItemEnv

/-- `get_profile_info`: username (sanitized) and avatar URL, or
`(None, None)` when the probes fail. -/
def get_profile_info (env : HarvestEnv) : Option String × Option String :=
  match env.profileUsername with
  | none => (none, none)
  | some u => (some (sanitize_filename (pyStrip u)), env.profilePicUrl)

/-- `check_url_accessible` (lines 406-427): opens a session, navigates,
inspects the page, and always closes the session in its `finally`. -/
def check_url_accessible_trace (url : String) : List Ev :=
  [.openSession, .navigate url, .closeSession]

/-- `get_all_item_urls` (lines 195-223): opens a session, navigates,
reads the closet header (`total_items` is `None` when the header probe
raises, else the first integer of its text, defaulting to `0`), scrolls,
and returns WITHOUT closing the session — there is no `driver.quit()`
in this function. -/
def get_all_item_urls (userUrl : String) (env : HarvestEnv) :
    List Ev × (Option String × Option String) × List String :=
  let profile := get_profile_info env
  let totalItems : Option Nat :=
    match env.headerText with
    | .exn => none
    | .ok t => some ((firstInt t).getD 0)
  let itemUrls := (scroll_until_all_items_loaded env.pageLinks totalItems 30).2
  ([.openSession, .navigate userUrl], profile, itemUrls)

/-- Outcome of a `__main__` run. -/
inductive MainOutcome where
  | exited (code : Nat)
  | finished
  | crashed (msg : String)
  deriving DecidableEq, Repr

/-- The `--all` path of `__main__` (lines 429-466 plus the handlers at
486-489): validate, pre-flight accessibility check (session closed),
open a session for `get_profile_info` (line 441; never closed), run
`get_all_item_urls` (its session never closed either), download the
avatar when both username and avatar URL are truthy, then iterate the
items; an exception escaping the loop is caught by the harvest-level
`except`, which logs the message and ends the run. -/
def mainAll (rawUrl : String) (env : HarvestEnv) : List Ev × MainOutcome :=
  match validate_url rawUrl with
  | none => ([], .exited 1)
  | some vu =>
    let tAccess := check_url_accessible_trace vu
    if !env.accessibleOk then (tAccess, .exited 1)
    else
      let tMain : List Ev := [.openSession, .navigate vu]
      match (get_profile_info env).1 with
      | none => (tAccess ++ tMain, .exited 1)
      | some _ =>
        let disc := get_all_item_urls vu env
        let username := disc.2.1.1
        let picUrl := disc.2.1.2
        let avatar : List Ev × String :=
          if pyTruthyS username && pyTruthyS picUrl then
            ([.fetchImage (pyStr picUrl)], pyStr username)
          else ([], "")
        let items := iterateItems avatar.2 env.itemEnv disc.2.2
        let trace := tAccess ++ tMain ++ disc.1 ++ avatar.1 ++ items.1
        match items.2 with
        | some e => (trace, .crashed e)
        | none => (trace, .finished)

/-- Count of `openSession` events. -/
def countOpens (t : List Ev) : Nat :=
  (t.filter (fun e => match e with | .openSession => true | _ => false)).length

/-- Count of `closeSession` events. -/
def countCloses (t : List Ev) : Nat :=
  (t.filter (fun e => match e with | .closeSession => true | _ => false)).length

/-- `true` when the trace contains a `writeDescription` event. -/
def writesDescription (t : List Ev) : Bool :=
  t.any (fun e => match e with | .writeDescription _ => true | _ => false)

/-- The fetch oracle of scenario C: the second of three candidate URLs
fails. -/
def fetchScenC (u : String) : Option FetchResp :=
  if u == "https://images1.vinted.net/t/b.jpg" then none
  else some ⟨"image/jpeg"⟩

/-- An item page on which everything succeeds: title present, a truthy
description, no pre-existing `description.txt`, a working artifact
write, and no images. -/
def envGood : ItemEnv where
  navigateOk := true
  title := .ok "Item B"
  currentUrl := ""
  timestamp := 0
  dom := ⟨.ok "B description", .exn, .exn, .exn, .exn⟩
  hasDescriptionFile := false
  saveOk := true
  selectorImgs := [[], [], [], []]
  scrollImgs := fun _ => []
  fetch := fun _ => none

/-- Like `envGood` but the unguarded `save_description` write raises
(e.g. an I/O error while writing `description.txt`). -/
def envSaveFails : ItemEnv :=
  { envGood with
    title := .ok "Item A"
    dom := ⟨.ok "A description", .exn, .exn, .exn, .exn⟩
    saveOk := false }

/-- Per-item environments of the two-item harvest whose first item's
artifact write raises. -/
def envOfC1 (u : String) : ItemEnv :=
  if u == "https://www.vinted.com/items/1-a" then envSaveFails else envGood

/-- Like `envGood` but the item folder already holds `description.txt`
from an earlier run. -/
def envAlreadyHarvested : ItemEnv :=
  { envGood with hasDescriptionFile := true }

/-- An item page whose description element exists but holds only
whitespace, and whose four other probes time out: extraction yields
`some ""` — present but falsy. -/
def envEmptyDesc : ItemEnv :=
  { envGood with dom := ⟨.ok "  ", .exn, .exn, .exn, .exn⟩ }

/-- A fully successful one-item profile harvest. -/
def envHarvest : HarvestEnv where
  accessibleOk := true
  profileUsername := some "alice"
  profilePicUrl := some "https://images1.vinted.net/t/avatar.jpg"
  headerText := .ok "1 item"
  pageLinks := fun _ => ["https://www.vinted.com/items/2-b"]
  itemEnv := fun _ => envGood

/-- A page on which every primary selector strategy comes back empty and
the first recovery scroll shows one non-thumbnail media-host image. -/
def envRecovery : ItemEnv where
  navigateOk := true
  title := .ok "Item"
  currentUrl := ""
  timestamp := 0
  dom := ⟨.exn, .exn, .exn, .exn, .exn⟩
  hasDescriptionFile := false
  saveOk := true
  selectorImgs := [[], [], [], []]
  scrollImgs := fun _ => [some "https://images1.vinted.net/photos/a.jpg"]
  fetch := fun _ => none

end VintedTool

/-! ## Theorems -/

namespace VintedTool

lemma mem_addUnique1 {acc : List String} {v u : String}
    (h : u ∈ addUnique1 acc v) : u ∈ acc ∨ u = v := by
  unfold addUnique1 at h
  by_cases hv : v ∈ acc
  · rw [if_pos hv] at h; exact Or.inl h
  · rw [if_neg hv] at h
    rcases List.mem_append.mp h with h' | h'
    · exact Or.inl h'
    · exact Or.inr (List.mem_singleton.mp h')

lemma collectFallbackRound_cons_none (acc : List String)
    (tl : List (Option String)) :
    collectFallbackRound acc (none :: tl) = collectFallbackRound acc tl := rfl

lemma collectFallbackRound_cons_some (acc : List String) (v : String)
    (tl : List (Option String)) :
    collectFallbackRound acc (some v :: tl)
      = collectFallbackRound
          (if fallbackFilter v then addUnique1 acc v else acc) tl := rfl

lemma mem_collectFallbackRound :
    ∀ (imgs : List (Option String)) (acc : List String) (u : String),
      u ∈ collectFallbackRound acc imgs → u ∈ acc ∨ some u ∈ imgs := by
  intro imgs
  induction imgs with
  | nil => intro acc u h; exact Or.inl h
  | cons hd tl ih =>
    intro acc u h
    cases hd with
    | none =>
      rw [collectFallbackRound_cons_none] at h
      rcases ih acc u h with h' | h'
      · exact Or.inl h'
      · exact Or.inr (List.mem_cons_of_mem _ h')
    | some v =>
      rw [collectFallbackRound_cons_some] at h
      by_cases hf : fallbackFilter v = true
      · rw [if_pos hf] at h
        rcases ih (addUnique1 acc v) u h with h' | h'
        · rcases mem_addUnique1 h' with h'' | h''
          · exact Or.inl h''
          · exact Or.inr (h'' ▸ List.mem_cons_self _ _)
        · exact Or.inr (List.mem_cons_of_mem _ h')
      · rw [if_neg hf] at h
        rcases ih acc u h with h' | h'
        · exact Or.inl h'
        · exact Or.inr (List.mem_cons_of_mem _ h')

/-- C2: each of description, price, size, condition and color is probed
independently: forcing any subset of the five probes to fail gives an
absent value for exactly those fields while every other field keeps the
value it has when the failed probes succeed; a failed probe never raises
or short-circuits the others. -/
theorem C2_field_probes_independent (d : DomProbes) (S : FailSet) :
    (extractTextFields (maskDom S d)).description
        = (if S.description then none else (extractTextFields d).description)
      ∧ (extractTextFields (maskDom S d)).price
        = (if S.price then none else (extractTextFields d).price)
      ∧ (extractTextFields (maskDom S d)).size
        = (if S.size then none else (extractTextFields d).size)
      ∧ (extractTextFields (maskDom S d)).condition
        = (if S.condition then none else (extractTextFields d).condition)
      ∧ (extractTextFields (maskDom S d)).color
        = (if S.color then none else (extractTextFields d).color) := by
  refine ⟨?_, ?_, ?_, ?_, ?_⟩
  · cases hS : S.description <;> simp [extractTextFields, maskDom, hS, tryProbe]
  · cases hS : S.price <;> simp [extractTextFields, maskDom, hS, tryProbe]
  · cases hS : S.size <;> simp [extractTextFields, maskDom, hS, tryProbe]
  · cases hS : S.condition <;> simp [extractTextFields, maskDom, hS, tryProbe]
  · cases hS : S.color <;> simp [extractTextFields, maskDom, hS, tryProbe]

/-- C6 counterexample: for a `webp` response whose URL reveals no file
extension, the code picks `.png`, not the `.jpg` default the claim
states. -/
theorem C6_counterexample :
    chooseExt "image/webp" "https://images1.vinted.net/t/02_abc/photo" = ".png"
      ∧ (".png" : String) ≠ ".jpg" := by
  exact ⟨by decide, by decide⟩

/-- C6 amended: a content type containing `jpeg` gives `.jpg`, one
containing `png` gives `.png`, and for any other content type the
extension is `.jpg` exactly when the lower-cased URL contains the
substring `.jpeg`, else `.png` (so the default when the URL reveals
nothing is `.png`). -/
theorem C6_amended_extension_rules (ct url : String) :
    (pyIn "jpeg" (pyLower ct) = true → chooseExt ct url = ".jpg")
      ∧ (pyIn "jpeg" (pyLower ct) = false → pyIn "png" (pyLower ct) = true →
          chooseExt ct url = ".png")
      ∧ (pyIn "jpeg" (pyLower ct) = false → pyIn "png" (pyLower ct) = false →
          chooseExt ct url
            = if pyIn ".jpeg" (pyLower url) then ".jpg" else ".png") := by
  refine ⟨?_, ?_, ?_⟩
  · intro h1; simp [chooseExt, h1]
  · intro h1 h2; simp [chooseExt, h1, h2]
  · intro h1 h2; simp [chooseExt, h1, h2]

theorem C6_amended_witness :
    pyIn "jpeg" (pyLower "IMAGE/JPEG") = true
      ∧ chooseExt "IMAGE/JPEG" "x" = ".jpg" :=
  ⟨by decide, (C6_amended_extension_rules "IMAGE/JPEG" "x").1 (by decide)⟩

lemma is_valid_parts {u : String} (h : is_valid_vinted_url u = true) :
    ((urlparseModel u).scheme = "http" ∨ (urlparseModel u).scheme = "https")
      ∧ pyIn "vinted." (urlparseModel u).netloc = true
      ∧ (["/items/", "/member/", "/catalog/", "/user/"].any
          (fun p => pyStartsWith p (pyLower (urlparseModel u).path))) = true := by
  unfold is_valid_vinted_url at h
  rw [Bool.and_eq_true, Bool.and_eq_true] at h
  obtain ⟨⟨h1, h2⟩, h3⟩ := h
  simp only [Bool.or_eq_true, beq_iff_eq] at h1
  exact ⟨h1, h2, h3⟩

lemma scheme_startsWith {u : String}
    (h : (urlparseModel u).scheme = "http" ∨ (urlparseModel u).scheme = "https") :
    pyStartsWith "http://" u = true ∨ pyStartsWith "https://" u = true := by
  by_cases h1 : pyStartsWith "http://" u = true
  · exact Or.inl h1
  by_cases h2 : pyStartsWith "https://" u = true
  · exact Or.inr h2
  exfalso
  unfold urlparseModel at h
  rw [if_neg h1, if_neg h2] at h
  simp at h

/-- C8 amended: every input the classifier accepts canonicalizes to a
URL with an explicit `http`/`https` scheme, an authority containing the
substring `vinted.`, and a path starting with one of the four allow-list
prefixes.  (The authority check is only the substring test, which is
weaker than membership in the marketplace's domain family — see the
counterexample.) -/
theorem C8_amended_classifier (s u : String) (h : validate_url s = some u) :
    (pyStartsWith "http://" u = true ∨ pyStartsWith "https://" u = true)
      ∧ ((urlparseModel u).scheme = "http" ∨ (urlparseModel u).scheme = "https")
      ∧ pyIn "vinted." (urlparseModel u).netloc = true
      ∧ (["/items/", "/member/", "/catalog/", "/user/"].any
          (fun p => pyStartsWith p (pyLower (urlparseModel u).path))) = true := by
  unfold validate_url at h
  by_cases hv : is_valid_vinted_url (canonicalize s) = true
  · rw [if_pos hv] at h
    obtain rfl : canonicalize s = u := Option.some.inj h
    have props := is_valid_parts hv
    exact ⟨scheme_startsWith props.1, props⟩
  · rw [if_neg hv] at h
    cases h

theorem C8_amended_witness :
    validate_url "www.vinted.co.uk/member/123-alice"
        = some "https://www.vinted.co.uk/member/123-alice"
      ∧ pyIn "vinted."
          (urlparseModel "https://www.vinted.co.uk/member/123-alice").netloc
          = true :=
  ⟨by decide,
    (C8_amended_classifier "www.vinted.co.uk/member/123-alice"
      "https://www.vinted.co.uk/member/123-alice" (by decide)).2.2.1⟩

/-- C8 counterexample: the host check is `'vinted.' in netloc`, a bare
substring test: `https://fakevinted.example.com/items/1` is accepted by
`validate_url` although its host is not in the marketplace's domain
family. -/
theorem C8_counterexample :
    validate_url "https://fakevinted.example.com/items/1"
        = some "https://fakevinted.example.com/items/1"
      ∧ specDomainFamily
          (urlparseModel "https://fakevinted.example.com/items/1").netloc
          = false := by
  exact ⟨by decide, by decide⟩

/-- C10: the recovery loop's acceptance filter only requires the
`vinted.net` marker: it is implied by the primary allow-pattern but not
conversely; the recovery loop adds URLs verbatim (no resolution against
the item URL); it runs only when the primary strategies found nothing;
and there is a page on which it collects a URL the primary allow-pattern
rejects. -/
theorem C10_recovery_filter_weaker :
    (∀ u, primaryFilter u = true → fallbackFilter u = true)
      ∧ fallbackFilter "https://images1.vinted.net/photos/a.jpg" = true
      ∧ primaryFilter "https://images1.vinted.net/photos/a.jpg" = false
      ∧ (∀ acc imgs u, u ∈ collectFallbackRound acc imgs →
          u ∈ acc ∨ some u ∈ imgs)
      ∧ (∀ env itemUrl, primaryCollect itemUrl env.selectorImgs ≠ [] →
          discoverImages env itemUrl = primaryCollect itemUrl env.selectorImgs)
      ∧ discoverImages envRecovery "https://www.vinted.co.uk/items/1-x"
          = ["https://images1.vinted.net/photos/a.jpg"] := by
  refine ⟨?_, by decide, by decide, ?_, ?_, by decide⟩
  · intro u h
    unfold primaryFilter at h
    rw [Bool.and_eq_true] at h
    unfold fallbackFilter
    exact h.1
  · intro acc imgs u h
    exact mem_collectFallbackRound imgs acc u h
  · intro env itemUrl h
    unfold discoverImages
    cases hp : primaryCollect itemUrl env.selectorImgs with
    | nil => exact absurd hp h
    | cons a l => simp [hp]

lemma ledgerOf_downloadOutcomes (folder name : String)
    (fetch : String → Option FetchResp) :
    ∀ (urls : List String) (i : Nat),
      ledgerOf (downloadOutcomes folder name fetch i urls)
        = urls.filter (fun u => (fetch u).isNone) := by
  intro urls
  induction urls with
  | nil => intro i; rfl
  | cons u rest ih =>
    intro i
    cases hf : fetch u with
    | some resp =>
      simp only [downloadOutcomes, hf, ledgerOf, List.filter_cons, ih,
        Option.isNone_some, Bool.false_eq_true, if_false]
    | none =>
      simp only [downloadOutcomes, hf, ledgerOf, List.filter_cons, ih,
        Option.isNone_none, if_true]

lemma savedOf_map_fst (folder name : String)
    (fetch : String → Option FetchResp) :
    ∀ (urls : List String) (i : Nat),
      (savedOf (downloadOutcomes folder name fetch i urls)).map Prod.fst
        = ((List.range urls.length).filter
            (fun j => (fetch (urls.getD j "")).isSome)).map (fun j => j + i) := by
  intro urls
  induction urls with
  | nil => intro i; rfl
  | cons u rest ih =>
    intro i
    have tailEq :
        ((List.map Nat.succ (List.range rest.length)).filter
            (fun j => (fetch ((u :: rest).getD j "")).isSome)).map (fun j => j + i)
          = ((List.range rest.length).filter
              (fun j => (fetch (rest.getD j "")).isSome)).map (fun j => j + (i + 1)) := by
      rw [List.filter_map]
      rw [List.map_map]
      have hp :
          ((fun j => (fetch ((u :: rest).getD j "")).isSome) ∘ Nat.succ)
            = fun j => (fetch (rest.getD j "")).isSome := by
        funext j
        simp [Function.comp, List.getD_cons_succ]
      rw [hp]
      congr 1
      funext j
      simp [Function.comp]
      omega
    cases hf : fetch u with
    | some resp =>
      simp only [downloadOutcomes, hf, savedOf, List.map_cons, ih,
        List.length_cons, List.range_succ_eq_map, List.filter_cons,
        List.getD_cons_zero, Option.isSome_some, if_true, tailEq]
      simp
    | none =>
      simp only [downloadOutcomes, hf, savedOf, ih, List.length_cons,
        List.range_succ_eq_map, List.filter_cons, List.getD_cons_zero,
        Option.isSome_none, Bool.false_eq_true, if_false, tailEq]

lemma filter_isNone_unique (fetch : String → Option FetchResp) :
    ∀ (urls : List String) (k : Nat), k < urls.length →
      (∀ j, j < urls.length → ((fetch (urls.getD j "") = none) ↔ j = k)) →
      urls.filter (fun u => (fetch u).isNone) = [urls.getD k ""] := by
  intro urls
  induction urls with
  | nil => intro k hk; simp at hk
  | cons u rest ih =>
    intro k hk hsel
    cases k with
    | zero =>
      have hu : fetch u = none := by
        have := (hsel 0 (by simp)).mpr rfl
        simpa [List.getD_cons_zero] using this
      have hrest : rest.filter (fun u => (fetch u).isNone) = [] := by
        rw [List.filter_eq_nil_iff]
        intro x hx
        obtain ⟨⟨j, hjlt⟩, hget⟩ := List.mem_iff_get.mp hx
        have hx' : rest.getD j "" = x := by
          rw [List.getD_eq_get rest "" hjlt, hget]
        have hiff := hsel (j + 1) (by simpa using Nat.succ_lt_succ hjlt)
        rw [List.getD_cons_succ, hx'] at hiff
        intro hno
        have hxn : fetch x = none := Option.isNone_iff_eq_none.mp hno
        have : j + 1 = 0 := hiff.mp hxn
        omega
      rw [List.filter_cons]
      simp [hu, hrest, List.getD_cons_zero]
    | succ k' =>
      have hu : ¬ ((fetch u).isNone = true) := by
        intro hno
        have hxn : fetch u = none := Option.isNone_iff_eq_none.mp hno
        have h0 := (hsel 0 (by simp)).mp (by simpa [List.getD_cons_zero] using hxn)
        omega
      rw [List.filter_cons, if_neg hu, List.getD_cons_succ]
      apply ih k' (by simp only [List.length_cons] at hk; omega)
      intro j hj
      have hiff := hsel (j + 1) (by simp only [List.length_cons]; omega)
      rw [List.getD_cons_succ] at hiff
      constructor
      · intro hn
        have := hiff.mp hn
        omega
      · intro hjk
        exact hiff.mpr (by omega)

lemma mem_addUnique1_iff {acc : List String} {v u : String} :
    u ∈ addUnique1 acc v ↔ u ∈ acc ∨ u = v := by
  unfold addUnique1
  by_cases hv : v ∈ acc
  · rw [if_pos hv]
    constructor
    · exact Or.inl
    · rintro (h | rfl)
      · exact h
      · exact hv
  · rw [if_neg hv]
    simp

lemma nodup_addUnique1 {acc : List String} {v : String} (h : acc.Nodup) :
    (addUnique1 acc v).Nodup := by
  unfold addUnique1
  by_cases hv : v ∈ acc
  · rw [if_pos hv]; exact h
  · rw [if_neg hv]
    rw [List.nodup_append]
    refine ⟨h, List.nodup_singleton v, ?_⟩
    intro a ha hb
    rw [List.mem_singleton] at hb
    subst hb
    exact hv ha

lemma mem_addUniqueAll :
    ∀ (ls seen : List String) (u : String),
      u ∈ addUniqueAll seen ls ↔ u ∈ seen ∨ u ∈ ls := by
  intro ls
  induction ls with
  | nil => intro seen u; simp [addUniqueAll]
  | cons v tl ih =>
    intro seen u
    have hstep : addUniqueAll seen (v :: tl) = addUniqueAll (addUnique1 seen v) tl := rfl
    rw [hstep, ih, mem_addUnique1_iff]
    constructor
    · rintro ((h | rfl) | h)
      · exact Or.inl h
      · exact Or.inr (List.mem_cons_self _ _)
      · exact Or.inr (List.mem_cons_of_mem _ h)
    · rintro (h | h)
      · exact Or.inl (Or.inl h)
      · rcases List.mem_cons.mp h with rfl | h'
        · exact Or.inl (Or.inr rfl)
        · exact Or.inr h'

lemma nodup_addUniqueAll :
    ∀ (ls seen : List String), seen.Nodup → (addUniqueAll seen ls).Nodup := by
  intro ls
  induction ls with
  | nil => intro seen h; exact h
  | cons v tl ih => intro seen h; exact ih _ (nodup_addUnique1 h)

lemma scrollAux_succ (pl : Nat → List String) (e : Option Nat)
    (f round : Nat) (seen : List String) :
    scrollAux pl e (f + 1) round seen
      = if pyTruthyNatOpt e
            && decide (e.getD 0 ≤ (addUniqueAll seen (pl round)).length) then
          (round + 1, addUniqueAll seen (pl round))
        else scrollAux pl e f (round + 1) (addUniqueAll seen (pl round)) := rfl

lemma scrollAux_fst_le (pl : Nat → List String) (e : Option Nat) :
    ∀ (fuel round : Nat) (seen : List String),
      (scrollAux pl e fuel round seen).1 ≤ round + fuel := by
  intro fuel
  induction fuel with
  | zero => intro round seen; simp [scrollAux]
  | succ f ih =>
    intro round seen
    rw [scrollAux_succ]
    by_cases hc : (pyTruthyNatOpt e
        && decide (e.getD 0 ≤ (addUniqueAll seen (pl round)).length)) = true
    · rw [if_pos hc]
      simp
    · rw [if_neg hc]
      have := ih (round + 1) (addUniqueAll seen (pl round))
      omega

lemma scrollAux_fst_eq (pl : Nat → List String) (e : Option Nat)
    (he : pyTruthyNatOpt e = false) :
    ∀ (fuel round : Nat) (seen : List String),
      (scrollAux pl e fuel round seen).1 = round + fuel := by
  intro fuel
  induction fuel with
  | zero => intro round seen; simp [scrollAux]
  | succ f ih =>
    intro round seen
    rw [scrollAux_succ, if_neg (by rw [he]; simp)]
    have := ih (round + 1) (addUniqueAll seen (pl round))
    omega

lemma scrollAux_mem (pl : Nat → List String) (e : Option Nat)
    (he : pyTruthyNatOpt e = false) :
    ∀ (fuel round : Nat) (seen : List String) (u : String),
      u ∈ (scrollAux pl e fuel round seen).2
        ↔ u ∈ seen ∨ ∃ r, round ≤ r ∧ r < round + fuel ∧ u ∈ pl r := by
  intro fuel
  induction fuel with
  | zero =>
    intro round seen u
    constructor
    · exact Or.inl
    · rintro (h | ⟨r, h1, h2, _⟩)
      · exact h
      · omega
  | succ f ih =>
    intro round seen u
    rw [scrollAux_succ, if_neg (by rw [he]; simp)]
    rw [ih, mem_addUniqueAll]
    constructor
    · rintro ((h | h) | ⟨r, h1, h2, h3⟩)
      · exact Or.inl h
      · exact Or.inr ⟨round, le_refl _, by omega, h⟩
      · exact Or.inr ⟨r, by omega, by omega, h3⟩
    · rintro (h | ⟨r, h1, h2, h3⟩)
      · exact Or.inl (Or.inl h)
      · by_cases hr : r = round
        · subst hr
          exact Or.inl (Or.inr h3)
        · exact Or.inr ⟨r, by omega, by omega, h3⟩

lemma scrollAux_nodup (pl : Nat → List String) (e : Option Nat) :
    ∀ (fuel round : Nat) (seen : List String),
      seen.Nodup → (scrollAux pl e fuel round seen).2.Nodup := by
  intro fuel
  induction fuel with
  | zero => intro round seen h; exact h
  | succ f ih =>
    intro round seen h
    rw [scrollAux_succ]
    by_cases hc : (pyTruthyNatOpt e
        && decide (e.getD 0 ≤ (addUniqueAll seen (pl round)).length)) = true
    · rw [if_pos hc]
      exact nodup_addUniqueAll _ _ h
    · rw [if_neg hc]
      exact ih (round + 1) _ (nodup_addUniqueAll _ _ h)

/-- C7: the detector performs at most `max_scrolls` scroll rounds for
every value of `expected_count`, the accumulated link set is
deduplicated, and when `expected_count` is `None` or `0` the loop runs
all `max_scrolls` rounds and returns exactly the deduplicated union of
the links seen across those rounds, without raising. -/
theorem C7_scroll_round_budget (pageLinks : Nat → List String)
    (expected : Option Nat) (maxScrolls : Nat) :
    (scroll_until_all_items_loaded pageLinks expected maxScrolls).1 ≤ maxScrolls
      ∧ (scroll_until_all_items_loaded pageLinks expected maxScrolls).2.Nodup
      ∧ (expected = none ∨ expected = some 0 →
          (scroll_until_all_items_loaded pageLinks expected maxScrolls).1
              = maxScrolls
            ∧ ∀ u,
                u ∈ (scroll_until_all_items_loaded pageLinks expected maxScrolls).2
                  ↔ ∃ r, r < maxScrolls ∧ u ∈ pageLinks r) := by
  unfold scroll_until_all_items_loaded
  refine ⟨?_, ?_, ?_⟩
  · have := scrollAux_fst_le pageLinks expected maxScrolls 0 []
    omega
  · exact scrollAux_nodup pageLinks expected maxScrolls 0 [] List.nodup_nil
  · intro he
    have he' : pyTruthyNatOpt expected = false := by
      rcases he with rfl | rfl <;> rfl
    constructor
    · have := scrollAux_fst_eq pageLinks expected he' maxScrolls 0 []
      omega
    · intro u
      rw [scrollAux_mem pageLinks expected he' maxScrolls 0 [] u]
      constructor
      · rintro (h | ⟨r, h1, h2, h3⟩)
        · simp at h
        · exact ⟨r, by omega, h3⟩
      · rintro ⟨r, h1, h2⟩
        exact Or.inr ⟨r, by omega, by omega, h2⟩

theorem C7_witness :
    ((none : Option Nat) = none ∨ (none : Option Nat) = some 0)
      ∧ (scroll_until_all_items_loaded (fun _ => ["a"]) none 2).1 = 2 :=
  ⟨Or.inl rfl,
    ((C7_scroll_round_budget (fun _ => ["a"]) none 2).2.2 (Or.inl rfl)).1⟩

/-- C3: when the fetch of exactly the `k`-th URL (0-based here; the
scraper's ordinals are 1-based) of the deduplicated candidate list
fails, the other downloads all proceed, every saved file keeps the
ordinal of its iteration position (the ordinals are exactly
`{1, ..., N} \ {k+1}`, not renumbered), and the failure ledger receives
exactly one line: the failed source URL. -/
theorem C3_failed_download_isolated (folder name : String)
    (fetch : String → Option FetchResp) (urls : List String) (k : Nat)
    (hk : k < urls.length)
    (hsel : ∀ j, j < urls.length → ((fetch (urls.getD j "") = none) ↔ j = k)) :
    ledgerOf (downloadOutcomes folder name fetch 1 urls) = [urls.getD k ""]
      ∧ (savedOf (downloadOutcomes folder name fetch 1 urls)).map Prod.fst
          = ((List.range urls.length).filter (fun j => j ≠ k)).map
              (fun j => j + 1) := by
  constructor
  · rw [ledgerOf_downloadOutcomes]
    exact filter_isNone_unique fetch urls k hk hsel
  · rw [savedOf_map_fst]
    congr 1
    apply List.filter_congr
    intro j hj
    have hj' := List.mem_range.mp hj
    have hiff := hsel j hj'
    by_cases hjk : j = k
    · subst hjk
      have h1 : fetch (urls.getD j "") = none := hiff.mpr rfl
      rw [h1]
      simp
    · have hne : fetch (urls.getD j "") ≠ none := fun h => hjk (hiff.mp h)
      have h2 : (fetch (urls.getD j "")).isSome = true :=
        Option.isSome_iff_ne_none.mpr hne
      rw [h2]
      simp [hjk]

theorem C3_witness :
    (1 < (["https://images1.vinted.net/t/a.jpg",
        "https://images1.vinted.net/t/b.jpg",
        "https://images1.vinted.net/t/c.jpg"] : List String).length)
      ∧ ledgerOf (downloadOutcomes "f" "My Item" fetchScenC 1
            ["https://images1.vinted.net/t/a.jpg",
              "https://images1.vinted.net/t/b.jpg",
              "https://images1.vinted.net/t/c.jpg"])
          = ["https://images1.vinted.net/t/b.jpg"]
      ∧ (savedOf (downloadOutcomes "f" "My Item" fetchScenC 1
            ["https://images1.vinted.net/t/a.jpg",
              "https://images1.vinted.net/t/b.jpg",
              "https://images1.vinted.net/t/c.jpg"])).map Prod.fst
          = [1, 3] := by
  have H := C3_failed_download_isolated "f" "My Item" fetchScenC
    ["https://images1.vinted.net/t/a.jpg",
      "https://images1.vinted.net/t/b.jpg",
      "https://images1.vinted.net/t/c.jpg"] 1 (by decide) (by decide)
  refine ⟨by decide, H.1, ?_⟩
  rw [H.2]
  decide

theorem C10_witness :
    primaryFilter "https://images1.vinted.net/t/02_a/x.jpg" = true
      ∧ fallbackFilter "https://images1.vinted.net/t/02_a/x.jpg" = true :=
  ⟨by decide,
    C10_recovery_filter_weaker.1 "https://images1.vinted.net/t/02_a/x.jpg"
      (by decide)⟩

lemma descriptionPhase_exists {env : ItemEnv}
    (h : env.hasDescriptionFile = true) : descriptionPhase env = ([], none) := by
  unfold descriptionPhase
  rw [if_pos h]

lemma descriptionPhase_write {env : ItemEnv}
    (h1 : env.hasDescriptionFile = false)
    (h2 : anyFieldTruthy (extractTextFields env.dom) = true)
    (h3 : env.saveOk = true) :
    descriptionPhase env
      = (textPhaseEvents ++
          [.writeDescription (save_description (extractTextFields env.dom))],
        none) := by
  unfold descriptionPhase
  rw [if_neg (by rw [h1]; exact Bool.false_ne_true), if_pos h2, if_pos h3]

lemma descriptionPhase_nowrite {env : ItemEnv}
    (h1 : env.hasDescriptionFile = false)
    (h2 : anyFieldTruthy (extractTextFields env.dom) = false) :
    descriptionPhase env = (textPhaseEvents, none) := by
  unfold descriptionPhase
  rw [if_neg (by rw [h1]; exact Bool.false_ne_true),
    if_neg (by rw [h2]; exact Bool.false_ne_true)]

lemma download_images_ok (itemUrl baseFolder : String) (env : ItemEnv)
    (hnav : env.navigateOk = true) (hdp : (descriptionPhase env).2 = none) :
    download_images itemUrl baseFolder env
      = ([Ev.openSession, Ev.navigate itemUrl] ++ (descriptionPhase env).1 ++
          imagePhaseIn baseFolder env itemUrl ++ [Ev.closeSession], none) := by
  unfold download_images
  rw [hnav]
  simp only [Bool.not_true, Bool.false_eq_true, if_false, hdp]

lemma download_images_err (itemUrl baseFolder : String) (env : ItemEnv)
    (e : String)
    (hnav : env.navigateOk = true) (hdp : (descriptionPhase env).2 = some e) :
    download_images itemUrl baseFolder env
      = ([Ev.openSession, Ev.navigate itemUrl] ++ (descriptionPhase env).1 ++
          [Ev.closeSession], some e) := by
  unfold download_images
  rw [hnav]
  simp only [Bool.not_true, Bool.false_eq_true, if_false, hdp]

lemma mem_outcomeEvents :
    ∀ (os : List Outcome) (e : Ev), e ∈ outcomeEvents os →
      (∃ u, e = .fetchImage u) ∨ (∃ p, e = .saveImage p)
        ∨ (∃ u, e = .ledgerAppend u) := by
  intro os
  induction os with
  | nil => intro e h; simp [outcomeEvents] at h
  | cons o rest ih =>
    intro e h
    cases o with
    | saved idx u f =>
      simp only [outcomeEvents] at h
      rcases List.mem_cons.mp h with rfl | h2
      · exact Or.inl ⟨u, rfl⟩
      rcases List.mem_cons.mp h2 with rfl | h3
      · exact Or.inr (Or.inl ⟨f, rfl⟩)
      · exact ih e h3
    | failed idx u =>
      simp only [outcomeEvents] at h
      rcases List.mem_cons.mp h with rfl | h2
      · exact Or.inl ⟨u, rfl⟩
      rcases List.mem_cons.mp h2 with rfl | h3
      · exact Or.inr (Or.inr ⟨u, rfl⟩)
      · exact ih e h3

lemma probe_not_mem_outcomeEvents (os : List Outcome) (f : String) :
    Ev.probe f ∉ outcomeEvents os := by
  intro h
  rcases mem_outcomeEvents os _ h with ⟨u, hu⟩ | ⟨p, hp⟩ | ⟨u, hu⟩
  · exact Ev.noConfusion hu
  · exact Ev.noConfusion hp
  · exact Ev.noConfusion hu

lemma writeDescription_not_mem_outcomeEvents (os : List Outcome) (c : String) :
    Ev.writeDescription c ∉ outcomeEvents os := by
  intro h
  rcases mem_outcomeEvents os _ h with ⟨u, hu⟩ | ⟨p, hp⟩ | ⟨u, hu⟩
  · exact Ev.noConfusion hu
  · exact Ev.noConfusion hp
  · exact Ev.noConfusion hu

lemma writesDescription_append (a b : List Ev) :
    writesDescription (a ++ b) = (writesDescription a || writesDescription b) :=
  List.any_append

lemma writesDescription_outcomeEvents (os : List Outcome) :
    writesDescription (outcomeEvents os) = false := by
  induction os with
  | nil => rfl
  | cons o rest ih =>
    cases o with
    | saved idx u f =>
      simp only [writesDescription, List.any_cons, outcomeEvents] at ih ⊢
      rw [ih]
      rfl
    | failed idx u =>
      simp only [writesDescription, List.any_cons, outcomeEvents] at ih ⊢
      rw [ih]
      rfl

lemma writesDescription_imagePhaseIn (baseFolder : String) (env : ItemEnv)
    (itemUrl : String) :
    writesDescription (imagePhaseIn baseFolder env itemUrl) = false :=
  writesDescription_outcomeEvents _

/-- C4: when the item folder already contains `description.txt`, a
re-run of `download_images` performs no text-field probe, writes no
description artifact, raises nothing, and still performs the full image
discovery and download phase. -/
theorem C4_existing_artifact_skips_text_phase (itemUrl baseFolder : String)
    (env : ItemEnv) (hdesc : env.hasDescriptionFile = true)
    (hnav : env.navigateOk = true) :
    (download_images itemUrl baseFolder env).1
        = [Ev.openSession, Ev.navigate itemUrl] ++
            imagePhaseIn baseFolder env itemUrl ++ [Ev.closeSession]
      ∧ (download_images itemUrl baseFolder env).2 = none
      ∧ (∀ f, Ev.probe f ∉ (download_images itemUrl baseFolder env).1)
      ∧ (∀ c, Ev.writeDescription c ∉ (download_images itemUrl baseFolder env).1) := by
  have hdp := descriptionPhase_exists hdesc
  have heq := download_images_ok itemUrl baseFolder env hnav (by rw [hdp])
  rw [hdp] at heq
  simp only [List.append_nil] at heq
  refine ⟨?_, ?_, ?_, ?_⟩
  · rw [heq]
  · rw [heq]
  · intro f hmem
    rw [heq] at hmem
    simp at hmem
    exact probe_not_mem_outcomeEvents _ _ hmem
  · intro c hmem
    rw [heq] at hmem
    simp at hmem
    exact writeDescription_not_mem_outcomeEvents _ _ hmem

theorem C4_witness :
    envAlreadyHarvested.hasDescriptionFile = true
      ∧ (download_images "u" "" envAlreadyHarvested).2 = none :=
  ⟨rfl,
    (C4_existing_artifact_skips_text_phase "u" "" envAlreadyHarvested rfl rfl).2.1⟩

/-- C5 amended: on a fresh item folder with a working write, the
description artifact is produced exactly when at least one of the five
extracted values is truthy in Python's sense — present AND non-empty;
when it is produced, its content is the flat five-line key-value
artifact of `save_description`. -/
theorem C5_amended_artifact_iff_truthy_field (itemUrl baseFolder : String)
    (env : ItemEnv) (hnav : env.navigateOk = true)
    (hdesc : env.hasDescriptionFile = false) (hsave : env.saveOk = true) :
    writesDescription (download_images itemUrl baseFolder env).1
        = anyFieldTruthy (extractTextFields env.dom)
      ∧ (anyFieldTruthy (extractTextFields env.dom) = true →
          Ev.writeDescription (save_description (extractTextFields env.dom))
            ∈ (download_images itemUrl baseFolder env).1) := by
  by_cases ht : anyFieldTruthy (extractTextFields env.dom) = true
  · have hdp := descriptionPhase_write hdesc ht hsave
    have heq := download_images_ok itemUrl baseFolder env hnav (by rw [hdp])
    rw [hdp] at heq
    constructor
    · rw [heq, ht]
      simp only [writesDescription_append, writesDescription_imagePhaseIn]
      simp [writesDescription, textPhaseEvents]
    · intro _
      rw [heq]
      simp [List.mem_append, textPhaseEvents]
  · have ht' : anyFieldTruthy (extractTextFields env.dom) = false := by
      revert ht
      cases anyFieldTruthy (extractTextFields env.dom) <;> simp
    have hdp := descriptionPhase_nowrite hdesc ht'
    have heq := download_images_ok itemUrl baseFolder env hnav (by rw [hdp])
    rw [hdp] at heq
    constructor
    · rw [heq, ht']
      simp only [writesDescription_append, writesDescription_imagePhaseIn]
      simp [writesDescription, textPhaseEvents]
    · intro hcontra
      rw [ht'] at hcontra
      exact absurd hcontra Bool.false_ne_true

theorem C5_witness :
    anyFieldTruthy (extractTextFields envGood.dom) = true
      ∧ writesDescription (download_images "u" "" envGood).1 = true := by
  have H := C5_amended_artifact_iff_truthy_field "u" "" envGood rfl rfl rfl
  refine ⟨by decide, ?_⟩
  rw [H.1]
  decide

/-- C5 counterexample: an item whose description element is present but
whitespace-only extracts `description = some ""` — a non-absent field —
yet the truthiness guard fails and no description artifact is written,
refuting "one with at least one present field writes the artifact". -/
theorem C5_counterexample :
    (extractTextFields envEmptyDesc.dom).description = some ""
      ∧ writesDescription (download_images "u" "" envEmptyDesc).1 = false := by
  exact ⟨by decide, by decide⟩

/-- C1 amended: failures confined to the field probes and the image
phase never escape `download_images` (first conjunct), and an item whose
call returns normally lets the loop continue to the rest (second
conjunct); but when an exception DOES escape an item (navigation or
artifact-write failure), it propagates out of the loop: the harvest
outcome is that error and the trace ends with the failing item — the
remaining items are never processed (third conjunct). -/
theorem C1_amended_item_boundary (baseFolder : String)
    (envOf : String → ItemEnv) (u : String) (env : ItemEnv) :
    (env.navigateOk = true → env.saveOk = true →
        (download_images u baseFolder env).2 = none)
      ∧ (∀ rest, (download_images u baseFolder (envOf u)).2 = none →
          (iterateItems baseFolder envOf (u :: rest)).2
            = (iterateItems baseFolder envOf rest).2)
      ∧ (∀ rest e, (download_images u baseFolder (envOf u)).2 = some e →
          (iterateItems baseFolder envOf (u :: rest)).2 = some e
            ∧ (iterateItems baseFolder envOf (u :: rest)).1
                = (download_images u baseFolder (envOf u)).1) := by
  refine ⟨?_, ?_, ?_⟩
  · intro hnav hsave
    have hdp : (descriptionPhase env).2 = none := by
      by_cases hd : env.hasDescriptionFile = true
      · rw [descriptionPhase_exists hd]
      · have hd' : env.hasDescriptionFile = false := by
          revert hd
          cases env.hasDescriptionFile <;> simp
        by_cases ht : anyFieldTruthy (extractTextFields env.dom) = true
        · rw [descriptionPhase_write hd' ht hsave]
        · have ht' : anyFieldTruthy (extractTextFields env.dom) = false := by
            revert ht
            cases anyFieldTruthy (extractTextFields env.dom) <;> simp
          rw [descriptionPhase_nowrite hd' ht']
    rw [download_images_ok u baseFolder env hnav hdp]
  · intro rest h
    simp only [iterateItems, h]
  · intro rest e h
    simp only [iterateItems, h]
    exact ⟨trivial, trivial⟩

theorem C1_amended_witness :
    envGood.navigateOk = true ∧ envGood.saveOk = true
      ∧ (download_images "u" "" envGood).2 = none :=
  ⟨rfl, rfl, (C1_amended_item_boundary "" (fun _ => envGood) "u" envGood).1 rfl rfl⟩

/-- C1 counterexample: in a two-item harvest whose first item fails while
writing its description artifact, the exception escapes the item loop
(there is no per-item catch at `vinted_scraper.py` lines 462-464), the
harvest-level handler receives it, and the second item is never even
navigated to — refuting "no single item's failure terminates the harvest
of the remaining items". -/
theorem C1_counterexample :
    (iterateItems "" envOfC1
        ["https://www.vinted.com/items/1-a",
          "https://www.vinted.com/items/2-b"]).2
        = some "save_description raised"
      ∧ Ev.navigate "https://www.vinted.com/items/2-b"
          ∉ (iterateItems "" envOfC1
              ["https://www.vinted.com/items/1-a",
                "https://www.vinted.com/items/2-b"]).1 := by
  exact ⟨by decide, by decide⟩

/-- C9: evaluating the full `--all` path on a fully successful one-item
profile harvest: four browser sessions are opened (pre-flight check,
the `__main__` profile-info session at line 441, the
`get_all_item_urls` discovery session, one per-item session) but only
two are ever closed — the discovery sessions have no `driver.quit()` on
any path, contradicting the required scoped acquisition/release. -/
theorem C9_discovery_sessions_never_closed :
    countOpens (mainAll "https://www.vinted.com/member/123-alice" envHarvest).1 = 4
      ∧ countCloses (mainAll "https://www.vinted.com/member/123-alice" envHarvest).1 = 2
      ∧ (mainAll "https://www.vinted.com/member/123-alice" envHarvest).2
          = .finished := by
  exact ⟨by decide, by decide, by decide⟩

end VintedTool
